import Mathlib

/-!
Shallow embedding of the inventory consistency subsystem of the
bookstores-api repository (Go + PostgreSQL).

The embedding mirrors:
- the SQL schema and queries in internal/database/queries/books.sql and
  stores.sql (tables books, stores, skus with CHECK and UNIQUE constraints);
- the inventory service (package inventory: CreateSKU, GetSKU,
  UpdateSKUPrice, AdjustSKUStock) including its transaction discipline
  (every error path of AdjustSKUStock rolls the transaction back);
- the books service GetAvailability;
- the HTTP handler validation for CreateSKU (validator tags
  required / gte=0 on CreateSKURequest).

Go int32 arithmetic is modelled on Int with explicit wrap-around where the
source performs machine addition (the stock check in AdjustSKUStock).
Database state is passed explicitly; a mutating operation returns the
committed state together with the service result, and returns the input
state unchanged on every error path (modelling rollback / statement abort).
-/

deriving instance DecidableEq for Except

namespace Bookstores

/-- Largest value of Go int32 / PostgreSQL INTEGER. -/
def maxI32 : Int := 2147483647

/-- Smallest value of Go int32 / PostgreSQL INTEGER. -/
def minI32 : Int := -2147483648

/-- `x` is representable as a Go int32. -/
def isI32 (x : Int) : Prop := minI32 ≤ x ∧ x ≤ maxI32

instance (x : Int) : Decidable (isI32 x) := by unfold isI32; infer_instance

/-- Two's-complement wrap of a mathematical integer into the int32 range,
as performed by Go addition on int32 operands. -/
def wrap32 (x : Int) : Int := (x + 2147483648) % 4294967296 - 2147483648

theorem wrap32_eq_self {x : Int} (h1 : minI32 ≤ x) (h2 : x ≤ maxI32) :
    wrap32 x = x := by
  unfold wrap32 minI32 maxI32 at *
  omega

theorem wrap32_of_gt {x : Int} (h1 : maxI32 < x) (h2 : x ≤ 2 * maxI32) :
    wrap32 x = x - 4294967296 := by
  unfold wrap32 maxI32 at *
  omega

/-- A row of the `books` table (fields relevant to the inventory core). -/
structure Book where
  id : Int
  title : String
  author : String
  deletedAt : Option Nat
deriving Repr, DecidableEq

/-- A row of the `stores` table. -/
structure Store where
  id : Int
  uuid : Nat
  name : String
  address : String
  deletedAt : Option Nat
deriving Repr, DecidableEq

/-- A row of the `skus` table. -/
structure Sku where
  id : Int
  uuid : Nat
  bookId : Int
  storeId : Int
  priceInKopeks : Int
  stockCount : Int
  createdAt : Nat
  updatedAt : Nat
  deletedAt : Option Nat
deriving Repr, DecidableEq

/-- The database state: table contents plus the sequence / uuid generators
and the clock that `now()` reads. -/
structure DBState where
  books : List Book
  stores : List Store
  skus : List Sku
  nextSkuId : Int
  nextUuid : Nat
  now : Nat
deriving Repr, DecidableEq

/-- Query GetBookByID: `SELECT * FROM books WHERE id = $1 AND deleted_at IS NULL`. -/
def GetBookByID (st : DBState) (bookId : Int) : Option Book :=
  st.books.find? (fun b => b.id == bookId && b.deletedAt == none)

/-- Query GetStoreByUUID: `SELECT * FROM stores WHERE uuid = $1 AND deleted_at IS NULL`. -/
def GetStoreByUUID (st : DBState) (u : Nat) : Option Store :=
  st.stores.find? (fun s => s.uuid == u && s.deletedAt == none)

/-- Query GetSKUByUUID: non-deleted SKU by uuid joined with its book
(`JOIN books b ON s.book_id = b.id`; the join does not filter the book's
deleted_at). Yields no row when the join partner is absent. -/
def GetSKUByUUID (st : DBState) (u : Nat) : Option (Sku × Book) :=
  match st.skus.find? (fun s => s.uuid == u && s.deletedAt == none) with
  | none => none
  | some s => (st.books.find? (fun b => b.id == s.bookId)).map (fun b => (s, b))

/-- Modelled from the spec: the GetSKUByBookAndStore query used by the
service pre-check is absent from the sources (only its caller is present);
the spec says it looks up "an existing non-deleted SKU for (book, store)". -/
def GetSKUByBookAndStore (st : DBState) (bookId storeId : Int) : Option Sku :=
  st.skus.find? (fun s => s.bookId == bookId && s.storeId == storeId && s.deletedAt == none)

/-- Query ListBookAvailability: non-deleted SKUs of a book joined with their
non-deleted stores. -/
def ListBookAvailability (st : DBState) (bookId : Int) : List (Sku × Store) :=
  st.skus.filterMap (fun s =>
    if s.bookId == bookId && s.deletedAt == none then
      (st.stores.find? (fun t => t.id == s.storeId && t.deletedAt == none)).map
        (fun t => (s, t))
    else none)

/-- Errors surfaced by the storage layer. `constraintViolation` covers both a
CHECK-constraint failure and 32-bit INTEGER overflow raised by PostgreSQL;
either aborts the statement and, inside a transaction, forces rollback. -/
inductive DBErr where
  | noRows
  | fkViolation
  | uniqueViolation
  | constraintViolation
deriving Repr, DecidableEq

/-- The row built by the CreateSKU INSERT: generated id and uuid, the given
attributes, `now()` timestamps, no soft-delete mark. -/
def mkSku (st : DBState) (bookId storeId price stock : Int) : Sku :=
  { id := st.nextSkuId, uuid := st.nextUuid, bookId := bookId, storeId := storeId,
    priceInKopeks := price, stockCount := stock,
    createdAt := st.now, updatedAt := st.now, deletedAt := none }

/-- Query CreateSKU (`INSERT INTO skus ... RETURNING *`) together with the
schema constraints enforced by the database: foreign keys to books/stores,
`UNIQUE (book_id, store_id)` over all rows (soft-deleted included), and the
CHECKs `price_in_kopeks >= 0`, `stock_count >= 0`. -/
def dbCreateSKU (st : DBState) (bookId storeId price stock : Int) :
    Except DBErr (DBState × Sku) :=
  if ¬ st.books.any (fun b => b.id == bookId) then .error .fkViolation
  else if ¬ st.stores.any (fun t => t.id == storeId) then .error .fkViolation
  else if st.skus.any (fun s => s.bookId == bookId && s.storeId == storeId) then
    .error .uniqueViolation
  else if price < 0 ∨ stock < 0 then .error .constraintViolation
  else
    .ok ({ st with
            skus := st.skus ++ [mkSku st bookId storeId price stock]
            nextSkuId := st.nextSkuId + 1
            nextUuid := st.nextUuid + 1 }, mkSku st bookId storeId price stock)

/-- Per-row effect of the UpdateSKUPrice UPDATE (`SET price_in_kopeks = $2,
updated_at = now() WHERE uuid = $1`; no deleted_at filter). -/
def updPrice (now : Nat) (u : Nat) (newPrice : Int) (s : Sku) : Sku :=
  if s.uuid == u then { s with priceInKopeks := newPrice, updatedAt := now } else s

/-- Query UpdateSKUPrice with the CHECK constraint evaluated on every updated
row; `:one` yields noRows when no row matched. -/
def dbUpdateSKUPrice (st : DBState) (u : Nat) (newPrice : Int) :
    Except DBErr (DBState × Sku) :=
  if ∀ s ∈ st.skus, s.uuid = u → 0 ≤ newPrice then
    match (st.skus.map (updPrice st.now u newPrice)).find? (fun s => s.uuid == u) with
    | some r => .ok ({ st with skus := st.skus.map (updPrice st.now u newPrice) }, r)
    | none => .error .noRows
  else .error .constraintViolation

/-- Per-row effect of the AdjustSKUStock UPDATE (`SET stock_count =
stock_count + $2, updated_at = now() WHERE uuid = $1`; no deleted_at filter). -/
def adjStock (now : Nat) (u : Nat) (d : Int) (s : Sku) : Sku :=
  if s.uuid == u then { s with stockCount := s.stockCount + d, updatedAt := now } else s

/-- Query AdjustSKUStock: the database computes `stock_count + change_by` on
each matched row (INTEGER overflow raises) and re-checks `stock_count >= 0`;
`:one` yields noRows when no row matched. -/
def dbAdjustSKUStock (st : DBState) (u : Nat) (d : Int) :
    Except DBErr (DBState × Sku) :=
  if ∀ s ∈ st.skus, s.uuid = u → 0 ≤ s.stockCount + d ∧ s.stockCount + d ≤ maxI32 then
    match (st.skus.map (adjStock st.now u d)).find? (fun s => s.uuid == u) with
    | some r => .ok ({ st with skus := st.skus.map (adjStock st.now u d) }, r)
    | none => .error .noRows
  else .error .constraintViolation

/-- Service-level error taxonomy (the sentinel errors of package inventory,
plus handler-level input validation failure, plus pass-through storage
errors). -/
inductive SvcErr where
  | storeNotFound
  | bookNotFound
  | skuNotFound
  | skuAlreadyExists
  | insufficientStock
  | invalidInput
  | db (e : DBErr)
deriving Repr, DecidableEq

/-- The CreateSKURequest DTO (package inventory, models.go). -/
structure CreateSKURequest where
  bookId : Int
  storeUUID : Nat
  priceInKopeks : Int
  stockCount : Int
deriving Repr, DecidableEq

/-- service.CreateSKU: book lookup, store lookup, pre-check for an existing
SKU of the (book, store) pair, then insert. Every error is returned with the
state unchanged; note that an insert-time storage error is passed through
unclassified (`return repo.Sku\x7b\x7d, err`). -/
def CreateSKU (st : DBState) (p : CreateSKURequest) : DBState × Except SvcErr Sku :=
  match GetBookByID st p.bookId with
  | none => (st, .error .bookNotFound)
  | some _ =>
    match GetStoreByUUID st p.storeUUID with
    | none => (st, .error .storeNotFound)
    | some store =>
      match GetSKUByBookAndStore st p.bookId store.id with
      | some _ => (st, .error .skuAlreadyExists)
      | none =>
        match dbCreateSKU st p.bookId store.id p.priceInKopeks p.stockCount with
        | .error e => (st, .error (.db e))
        | .ok (st2, sku) => (st2, .ok sku)

/-- service.GetSKU: GetSKUByUUID, mapping ErrNoRows to ErrSKUNotFound. -/
def GetSKU (st : DBState) (u : Nat) : Except SvcErr (Sku × Book) :=
  match GetSKUByUUID st u with
  | none => .error .skuNotFound
  | some row => .ok row

/-- service.UpdateSKUPrice: existence check through GetSKU, then the
unconditional UPDATE. -/
def UpdateSKUPrice (st : DBState) (u : Nat) (newPrice : Int) :
    DBState × Except SvcErr Sku :=
  match GetSKU st u with
  | .error e => (st, .error e)
  | .ok _ =>
    match dbUpdateSKUPrice st u newPrice with
    | .error e => (st, .error (.db e))
    | .ok (st2, sku) => (st2, .ok sku)

/-- service.AdjustSKUStock: inside a transaction, re-read the SKU, check
`StockCount + changeBy < 0` in Go int32 (wrap-around) arithmetic, then apply
the atomic increment and commit. Every error path rolls back, returning the
input state unchanged. -/
def AdjustSKUStock (st : DBState) (u : Nat) (changeBy : Int) :
    DBState × Except SvcErr Sku :=
  match GetSKUByUUID st u with
  | none => (st, .error .skuNotFound)
  | some (sku, _) =>
    if wrap32 (sku.stockCount + changeBy) < 0 then (st, .error .insufficientStock)
    else
      match dbAdjustSKUStock st u changeBy with
      | .error e => (st, .error (.db e))
      | .ok (st2, updated) => (st2, .ok updated)

/-- books service GetByID (used by GetAvailability for the book check). -/
def GetByID (st : DBState) (bookId : Int) : Except SvcErr Book :=
  match GetBookByID st bookId with
  | none => .error .bookNotFound
  | some b => .ok b

/-- books service GetAvailability: book existence first, then the
availability join; an empty join result is a successful empty list. -/
def GetAvailability (st : DBState) (bookId : Int) :
    Except SvcErr (List (Sku × Store)) :=
  match GetByID st bookId with
  | .error e => .error e
  | .ok _ => .ok (ListBookAvailability st bookId)

/-- Handler-level validation of CreateSKURequest (validator tags:
`required` on book_id and store_uuid, `gte=0` on price and stock). -/
def validateCreateSKU (p : CreateSKURequest) : Bool :=
  p.bookId != 0 && p.storeUUID != 0 &&
    decide (0 ≤ p.priceInKopeks) && decide (0 ≤ p.stockCount)

/-- Handler.CreateSKU: validation happens before any call into the service,
hence before any storage access. -/
def handlerCreateSKU (st : DBState) (p : CreateSKURequest) :
    DBState × Except SvcErr Sku :=
  if validateCreateSKU p then CreateSKU st p else (st, .error .invalidInput)

/-! Inversion lemmas for the storage primitives. -/

theorem dbCreateSKU_ok {st : DBState} {bookId storeId price stock : Int}
    {st2 : DBState} {sku : Sku}
    (h : dbCreateSKU st bookId storeId price stock = .ok (st2, sku)) :
    sku = mkSku st bookId storeId price stock ∧
    st2.skus = st.skus ++ [sku] ∧ st2.books = st.books ∧ st2.stores = st.stores ∧
    0 ≤ price ∧ 0 ≤ stock := by
  unfold dbCreateSKU at h
  split at h
  · exact absurd h (by simp)
  · split at h
    · exact absurd h (by simp)
    · split at h
      · exact absurd h (by simp)
      · split at h
        · exact absurd h (by simp)
        · rename_i h1 h2 h3 h4
          simp only [Except.ok.injEq, Prod.mk.injEq] at h
          obtain ⟨hst, hsku⟩ := h
          subst hst
          subst hsku
          refine ⟨rfl, rfl, rfl, rfl, ?_, ?_⟩ <;> omega

theorem dbUpdateSKUPrice_ok {st : DBState} {u : Nat} {newPrice : Int}
    {st2 : DBState} {r : Sku}
    (h : dbUpdateSKUPrice st u newPrice = .ok (st2, r)) :
    (∀ s ∈ st.skus, s.uuid = u → 0 ≤ newPrice) ∧
    st2.skus = st.skus.map (updPrice st.now u newPrice) ∧
    st2.books = st.books ∧ st2.stores = st.stores ∧
    (st.skus.map (updPrice st.now u newPrice)).find? (fun s => s.uuid == u) = some r := by
  unfold dbUpdateSKUPrice at h
  split at h
  · rename_i hg
    split at h
    · rename_i r2 hfind
      simp only [Except.ok.injEq, Prod.mk.injEq] at h
      obtain ⟨hst, hr⟩ := h
      subst hst
      subst hr
      exact ⟨hg, rfl, rfl, rfl, hfind⟩
    · exact absurd h (by simp)
  · exact absurd h (by simp)

theorem dbAdjustSKUStock_ok {st : DBState} {u : Nat} {d : Int}
    {st2 : DBState} {r : Sku}
    (h : dbAdjustSKUStock st u d = .ok (st2, r)) :
    (∀ s ∈ st.skus, s.uuid = u → 0 ≤ s.stockCount + d ∧ s.stockCount + d ≤ maxI32) ∧
    st2 = { st with skus := st.skus.map (adjStock st.now u d) } ∧
    (st.skus.map (adjStock st.now u d)).find? (fun s => s.uuid == u) = some r := by
  unfold dbAdjustSKUStock at h
  split at h
  · rename_i hg
    split at h
    · rename_i r2 hfind
      simp only [Except.ok.injEq, Prod.mk.injEq] at h
      obtain ⟨hst, hr⟩ := h
      subst hr
      exact ⟨hg, hst.symm, hfind⟩
    · exact absurd h (by simp)
  · exact absurd h (by simp)

/-! The reachable-state invariant (claim C1). -/

/-- The invariant claimed of every SKU row: non-negative stock and price. -/
def SkuInv (st : DBState) : Prop :=
  ∀ s ∈ st.skus, 0 ≤ s.stockCount ∧ 0 ≤ s.priceInKopeks

/-- A CreateSKU request with valid inputs: price and stock are non-negative
(Go int32 values, hence bounded above as well). -/
def ValidCreateReq (p : CreateSKURequest) : Prop :=
  0 ≤ p.priceInKopeks ∧ p.priceInKopeks ≤ maxI32 ∧
  0 ≤ p.stockCount ∧ p.stockCount ≤ maxI32

instance (p : CreateSKURequest) : Decidable (ValidCreateReq p) := by
  unfold ValidCreateReq; infer_instance

/-- States reachable by any sequence of the core operations: CreateSKU with
valid inputs, UpdateSKUPrice with a non-negative new price, AdjustSKUStock
with any int32 delta, starting from a state with no SKUs. GetSKU and
GetAvailability are read-only and do not produce new states. -/
inductive Reachable : DBState → Prop where
  | init (st : DBState) : st.skus = [] → Reachable st
  | createSKU (st : DBState) (p : CreateSKURequest) :
      Reachable st → ValidCreateReq p → Reachable (CreateSKU st p).1
  | updatePrice (st : DBState) (u : Nat) (newPrice : Int) :
      Reachable st → 0 ≤ newPrice → Reachable (UpdateSKUPrice st u newPrice).1
  | adjustStock (st : DBState) (u : Nat) (d : Int) :
      Reachable st → isI32 d → Reachable (AdjustSKUStock st u d).1

theorem skuInv_createSKU (st : DBState) (p : CreateSKURequest) (h : SkuInv st) :
    SkuInv (CreateSKU st p).1 := by
  unfold CreateSKU
  split
  · exact h
  · split
    · exact h
    · split
      · exact h
      · split
        · exact h
        · rename_i store hb hs hk st2 sku heq
          obtain ⟨hsku, hskus, _, _, hp, hq⟩ := dbCreateSKU_ok heq
          intro s hmem
          simp only [hskus, List.mem_append, List.mem_singleton] at hmem
          rcases hmem with hmem | hmem
          · exact h s hmem
          · subst hmem
            subst hsku
            exact ⟨hq, hp⟩

theorem skuInv_updatePrice (st : DBState) (u : Nat) (newPrice : Int)
    (h : SkuInv st) : SkuInv (UpdateSKUPrice st u newPrice).1 := by
  unfold UpdateSKUPrice
  split
  · exact h
  · split
    · exact h
    · rename_i row hget st2 sku heq
      obtain ⟨hg, hskus, _, _, hfind⟩ := dbUpdateSKUPrice_ok heq
      intro s hmem
      simp only [hskus, List.mem_map] at hmem
      obtain ⟨x, hx, hxs⟩ := hmem
      subst hxs
      unfold updPrice
      split
      · rename_i hu
        simp only [beq_iff_eq] at hu
        exact ⟨(h x hx).1, hg x hx hu⟩
      · exact h x hx

theorem skuInv_adjustStock (st : DBState) (u : Nat) (d : Int)
    (h : SkuInv st) : SkuInv (AdjustSKUStock st u d).1 := by
  unfold AdjustSKUStock
  split
  · exact h
  · rename_i sku b hget
    split
    · exact h
    · split
      · exact h
      · rename_i hlt st2 r heq
        obtain ⟨hg, hst2, hfind⟩ := dbAdjustSKUStock_ok heq
        intro s hmem
        rw [hst2] at hmem
        simp only [List.mem_map] at hmem
        obtain ⟨x, hx, hxs⟩ := hmem
        subst hxs
        unfold adjStock
        split
        · rename_i hu
          simp only [beq_iff_eq] at hu
          exact ⟨(hg x hx hu).1, (h x hx).2⟩
        · exact h x hx

/-! Inversion and field-preservation helpers for the service operations. -/

theorem GetSKUByUUID_some {st : DBState} {u : Nat} {s : Sku} {b : Book}
    (h : GetSKUByUUID st u = some (s, b)) :
    st.skus.find? (fun x => x.uuid == u && x.deletedAt == none) = some s ∧
    st.books.find? (fun bk => bk.id == s.bookId) = some b ∧
    s ∈ st.skus ∧ s.uuid = u ∧ s.deletedAt = none := by
  unfold GetSKUByUUID at h
  split at h
  · exact absurd h (by simp)
  · rename_i s2 hf
    cases hb : st.books.find? (fun bk => bk.id == s2.bookId) with
    | none => rw [hb] at h; exact absurd h (by simp)
    | some b2 =>
      rw [hb] at h
      simp only [Option.map_some', Option.some.injEq, Prod.mk.injEq] at h
      obtain ⟨hs, hbb⟩ := h
      subst hs
      subst hbb
      have hp := List.find?_some hf
      simp only [Bool.and_eq_true, beq_iff_eq] at hp
      exact ⟨hf, hb, List.mem_of_find?_eq_some hf, hp.1, hp.2⟩

theorem updPrice_uuid (now u : Nat) (np : Int) (x : Sku) :
    (updPrice now u np x).uuid = x.uuid := by
  unfold updPrice; split <;> rfl

theorem updPrice_frame_fields (now u : Nat) (np : Int) (x : Sku) :
    (updPrice now u np x).id = x.id ∧ (updPrice now u np x).uuid = x.uuid ∧
    (updPrice now u np x).bookId = x.bookId ∧ (updPrice now u np x).storeId = x.storeId ∧
    (updPrice now u np x).stockCount = x.stockCount ∧
    (updPrice now u np x).createdAt = x.createdAt ∧
    (updPrice now u np x).deletedAt = x.deletedAt ∧
    (updPrice now u np x).priceInKopeks = (if x.uuid = u then np else x.priceInKopeks) := by
  unfold updPrice
  split
  · rename_i hc
    simp only [beq_iff_eq] at hc
    refine ⟨rfl, rfl, rfl, rfl, rfl, rfl, rfl, ?_⟩
    rw [if_pos hc]
  · rename_i hc
    simp only [beq_iff_eq] at hc
    refine ⟨rfl, rfl, rfl, rfl, rfl, rfl, rfl, ?_⟩
    rw [if_neg hc]

theorem adjStock_uuid (now u : Nat) (d : Int) (x : Sku) :
    (adjStock now u d x).uuid = x.uuid := by
  unfold adjStock; split <;> rfl

theorem adjStock_deletedAt (now u : Nat) (d : Int) (x : Sku) :
    (adjStock now u d x).deletedAt = x.deletedAt := by
  unfold adjStock; split <;> rfl

/-- Every exit of AdjustSKUStock either left the state unchanged (rollback)
or committed with a successful result. -/
theorem adjustStock_cases (st : DBState) (u : Nat) (d : Int) :
    (AdjustSKUStock st u d).1 = st ∨ ∃ r, (AdjustSKUStock st u d).2 = .ok r := by
  unfold AdjustSKUStock
  split
  · left; rfl
  · split
    · left; rfl
    · split
      · left; rfl
      · right; exact ⟨_, rfl⟩

/-- C1: in every state reachable by any sequence of the core operations
(CreateSKU with valid inputs, UpdateSKUPrice with a non-negative new price,
AdjustSKUStock with any signed int32 delta; GetSKU and GetAvailability are
read-only), every SKU row satisfies stock_count >= 0 and price >= 0. -/
theorem reachable_stock_price_nonneg (st : DBState) (h : Reachable st) :
    ∀ s ∈ st.skus, 0 ≤ s.stockCount ∧ 0 ≤ s.priceInKopeks := by
  induction h with
  | init st0 hs => intro s hmem; rw [hs] at hmem; cases hmem
  | createSKU st0 p _ hv ih => exact skuInv_createSKU st0 p ih
  | updatePrice st0 u np _ hnp ih => exact skuInv_updatePrice st0 u np ih
  | adjustStock st0 u d _ hd ih => exact skuInv_adjustStock st0 u d ih

/-- C2: AdjustStock is atomic with respect to failure: for an existing SKU
with current stock `s.stockCount` and a delta making the sum negative, the
call returns InsufficientStock with the state unchanged; and in general
every error exit of AdjustSKUStock (before commit) leaves the state
unchanged. -/
theorem adjustStock_atomic_on_failure (st : DBState) (u : Nat) (d : Int) :
    (∀ s b, GetSKUByUUID st u = some (s, b) → 0 ≤ s.stockCount → isI32 d →
      s.stockCount + d < 0 →
      AdjustSKUStock st u d = (st, .error .insufficientStock)) ∧
    (∀ e : SvcErr, (AdjustSKUStock st u d).2 = .error e →
      (AdjustSKUStock st u d).1 = st) := by
  constructor
  · intro s b hget hs hd hneg
    have hwrap : wrap32 (s.stockCount + d) = s.stockCount + d :=
      wrap32_eq_self (by unfold isI32 minI32 at *; omega)
        (by unfold isI32 maxI32 minI32 at *; omega)
    unfold AdjustSKUStock
    simp only [hget]
    rw [if_pos (by rw [hwrap]; exact hneg)]
  · intro e herr
    rcases adjustStock_cases st u d with hst | ⟨r, hok⟩
    · exact hst
    · rw [hok] at herr
      exact absurd herr (by simp)

/-- C9: GetSKU returns the (first matching) non-deleted SKU with the given
UUID joined with its book; it fails with SKUNotFound when every row with
that UUID is absent or soft-deleted. -/
theorem getSKU_spec (st : DBState) (u : Nat) :
    (∀ s b, st.skus.find? (fun x => x.uuid == u && x.deletedAt == none) = some s →
      st.books.find? (fun bk => bk.id == s.bookId) = some b →
      GetSKU st u = .ok (s, b)) ∧
    ((∀ x ∈ st.skus, ¬(x.uuid = u ∧ x.deletedAt = none)) →
      GetSKU st u = .error .skuNotFound) := by
  constructor
  · intro s b hf hb
    unfold GetSKU GetSKUByUUID
    simp only [hf, hb, Option.map_some']
  · intro hall
    have hf : st.skus.find? (fun x => x.uuid == u && x.deletedAt == none) = none := by
      rw [List.find?_eq_none]
      intro x hx
      simp only [Bool.and_eq_true, beq_iff_eq]
      exact fun hc => hall x hx ⟨hc.1, hc.2⟩
    unfold GetSKU GetSKUByUUID
    simp only [hf]

/-- C10: the InsufficientStock check computes the sum in 32-bit wrap-around
arithmetic; when the current stock plus a positive delta exceeds 2^31 - 1,
the sum wraps negative and AdjustSKUStock returns InsufficientStock with no
stock increase. -/
theorem adjustStock_overflow_insufficient (st : DBState) (u : Nat) (d : Int)
    (s : Sku) (b : Book)
    (hget : GetSKUByUUID st u = some (s, b))
    (hs0 : 0 ≤ s.stockCount) (hsmax : s.stockCount ≤ maxI32)
    (hd0 : 0 < d) (hdmax : d ≤ maxI32)
    (hover : maxI32 < s.stockCount + d) :
    wrap32 (s.stockCount + d) < 0 ∧
    AdjustSKUStock st u d = (st, .error .insufficientStock) := by
  have hw : wrap32 (s.stockCount + d) = s.stockCount + d - 4294967296 :=
    wrap32_of_gt hover (by unfold maxI32 at *; omega)
  have hneg : wrap32 (s.stockCount + d) < 0 := by
    rw [hw]; unfold maxI32 at *; omega
  refine ⟨hneg, ?_⟩
  unfold AdjustSKUStock
  simp only [hget]
  rw [if_pos hneg]

/-- C7: UpdatePrice frame condition: on an existing non-deleted SKU and a
non-negative new price it succeeds; the returned row carries the new price;
row for row, only price (on the matching uuid) and the updated timestamp
change — id, uuid, book_id, store_id, stock_count, created_at and the
soft-delete mark are untouched, and books/stores are untouched; it fails
with SKUNotFound when the SKU is absent or soft-deleted, leaving the state
unchanged. -/
theorem updatePrice_frame (st : DBState) (u : Nat) (newPrice : Int) :
    (GetSKUByUUID st u = none →
      UpdateSKUPrice st u newPrice = (st, .error .skuNotFound)) ∧
    (∀ s b, GetSKUByUUID st u = some (s, b) → 0 ≤ newPrice →
      ∃ st2 r, UpdateSKUPrice st u newPrice = (st2, .ok r) ∧
        r.priceInKopeks = newPrice ∧ r.uuid = u ∧
        st2.books = st.books ∧ st2.stores = st.stores ∧
        List.Forall₂ (fun x y =>
          y.id = x.id ∧ y.uuid = x.uuid ∧ y.bookId = x.bookId ∧
          y.storeId = x.storeId ∧ y.stockCount = x.stockCount ∧
          y.createdAt = x.createdAt ∧ y.deletedAt = x.deletedAt ∧
          y.priceInKopeks = (if x.uuid = u then newPrice else x.priceInKopeks))
          st.skus st2.skus) := by
  constructor
  · intro hnone
    unfold UpdateSKUPrice GetSKU
    simp only [hnone]
  · intro s b hget hnp
    obtain ⟨hf, hbk, hmem, huuid, hdel⟩ := GetSKUByUUID_some hget
    have hg : GetSKU st u = .ok (s, b) := by
      unfold GetSKU
      rw [hget]
    have hguard : ∀ x ∈ st.skus, x.uuid = u → 0 ≤ newPrice := fun _ _ _ => hnp
    cases hfr : (st.skus.map (updPrice st.now u newPrice)).find? (fun x => x.uuid == u) with
    | none =>
      exfalso
      rw [List.find?_eq_none] at hfr
      have hcontra := hfr (updPrice st.now u newPrice s) (List.mem_map_of_mem _ hmem)
      rw [updPrice_uuid] at hcontra
      simp [huuid] at hcontra
    | some r =>
      have hupd : dbUpdateSKUPrice st u newPrice =
          .ok ({ st with skus := st.skus.map (updPrice st.now u newPrice) }, r) := by
        unfold dbUpdateSKUPrice
        rw [if_pos hguard, hfr]
      refine ⟨{ st with skus := st.skus.map (updPrice st.now u newPrice) }, r,
        ?_, ?_, ?_, rfl, rfl, ?_⟩
      · unfold UpdateSKUPrice
        rw [hg, hupd]
      · obtain ⟨x, hx, hxr⟩ := List.mem_map.mp (List.mem_of_find?_eq_some hfr)
        have hru := List.find?_some hfr
        simp only [beq_iff_eq] at hru
        have hxu : x.uuid = u := by
          rw [← hxr, updPrice_uuid] at hru
          exact hru
        have hfields := updPrice_frame_fields st.now u newPrice x
        rw [hxr] at hfields
        rw [hfields.2.2.2.2.2.2.2, if_pos hxu]
      · have hru := List.find?_some hfr
        simp only [beq_iff_eq] at hru
        exact hru
      · dsimp only
        rw [List.forall₂_map_right_iff, List.forall₂_same]
        intro x hx
        exact updPrice_frame_fields st.now u newPrice x

/-- C8: a CreateSKU request with a negative price or a negative stock count
is rejected by the handler's validation with an InvalidInput error before
the service (and hence any storage access) is reached; the state is
unchanged. -/
theorem handlerCreateSKU_invalid_rejected (st : DBState) (p : CreateSKURequest)
    (h : p.priceInKopeks < 0 ∨ p.stockCount < 0) :
    handlerCreateSKU st p = (st, .error .invalidInput) := by
  have hv : validateCreateSKU p = false := by
    unfold validateCreateSKU
    rcases h with h | h
    · have hd : decide (0 ≤ p.priceInKopeks) = false := by
        simp only [decide_eq_false_iff_not, not_le]
        omega
      rw [hd]
      simp
    · have hd : decide (0 ≤ p.stockCount) = false := by
        simp only [decide_eq_false_iff_not, not_le]
        omega
      rw [hd]
      simp
  unfold handlerCreateSKU
  rw [hv]
  simp

theorem GetBookByID_some {st : DBState} {bookId : Int} {b : Book}
    (h : GetBookByID st bookId = some b) :
    b ∈ st.books ∧ b.id = bookId ∧ b.deletedAt = none := by
  unfold GetBookByID at h
  have hp := List.find?_some h
  simp only [Bool.and_eq_true, beq_iff_eq] at hp
  exact ⟨List.mem_of_find?_eq_some h, hp.1, hp.2⟩

theorem GetStoreByUUID_some {st : DBState} {u : Nat} {t : Store}
    (h : GetStoreByUUID st u = some t) :
    t ∈ st.stores ∧ t.uuid = u ∧ t.deletedAt = none := by
  unfold GetStoreByUUID at h
  have hp := List.find?_some h
  simp only [Bool.and_eq_true, beq_iff_eq] at hp
  exact ⟨List.mem_of_find?_eq_some h, hp.1, hp.2⟩

/-- C5: GetAvailability fails with BookNotFound exactly when the book does
not resolve (checked before the SKU query); when the book exists it returns
the availability rows — precisely the non-deleted SKUs of the book joined
with their non-deleted stores — and an empty list, not an error, when the
book exists but has no SKUs. -/
theorem getAvailability_spec (st : DBState) (bookId : Int) :
    (GetBookByID st bookId = none →
      GetAvailability st bookId = .error .bookNotFound) ∧
    (∀ b, GetBookByID st bookId = some b →
      GetAvailability st bookId = .ok (ListBookAvailability st bookId)) ∧
    (∀ s t, (s, t) ∈ ListBookAvailability st bookId ↔
      s ∈ st.skus ∧ s.bookId = bookId ∧ s.deletedAt = none ∧
      st.stores.find? (fun t2 => t2.id == s.storeId && t2.deletedAt == none) = some t) ∧
    (∀ b, GetBookByID st bookId = some b →
      (∀ s ∈ st.skus, ¬(s.bookId = bookId ∧ s.deletedAt = none)) →
      GetAvailability st bookId = .ok []) := by
  have hmem : ∀ s t, (s, t) ∈ ListBookAvailability st bookId ↔
      s ∈ st.skus ∧ s.bookId = bookId ∧ s.deletedAt = none ∧
      st.stores.find? (fun t2 => t2.id == s.storeId && t2.deletedAt == none) = some t := by
    intro s t
    unfold ListBookAvailability
    rw [List.mem_filterMap]
    constructor
    · rintro ⟨a, ha, hfa⟩
      by_cases hc : (a.bookId == bookId && a.deletedAt == none) = true
      · rw [if_pos hc] at hfa
        cases hft : st.stores.find? (fun t2 => t2.id == a.storeId && t2.deletedAt == none) with
        | none => rw [hft] at hfa; exact absurd hfa (by simp)
        | some t2 =>
          rw [hft] at hfa
          simp only [Option.map_some', Option.some.injEq, Prod.mk.injEq] at hfa
          obtain ⟨has, hts⟩ := hfa
          subst has
          subst hts
          simp only [Bool.and_eq_true, beq_iff_eq] at hc
          exact ⟨ha, hc.1, hc.2, hft⟩
      · rw [if_neg hc] at hfa
        exact absurd hfa (by simp)
    · rintro ⟨hs, hbid, hdel, hft⟩
      refine ⟨s, hs, ?_⟩
      rw [if_pos (by simp [hbid, hdel]), hft]
      rfl
  refine ⟨?_, ?_, hmem, ?_⟩
  · intro hnone
    unfold GetAvailability GetByID
    simp only [hnone]
  · intro b hb
    unfold GetAvailability GetByID
    simp only [hb]
  · intro b hb hno
    have hnil : ListBookAvailability st bookId = [] := by
      unfold ListBookAvailability
      rw [List.filterMap_eq_nil_iff]
      intro a ha
      rw [if_neg]
      simp only [Bool.and_eq_true, beq_iff_eq]
      exact fun hc => hno a ha ⟨hc.1, hc.2⟩
    unfold GetAvailability GetByID
    simp only [hb, hnil]

/-- C3: CreateSKU checks the book first (BookNotFound), then the store
(StoreNotFound), then an existing non-deleted SKU of the (book, store) pair
(SKUAlreadyExists); otherwise it inserts exactly one SKU row and returns it,
and an immediately subsequent CreateSKU for the same pair fails with
SKUAlreadyExists. -/
theorem createSKU_check_order (st : DBState) (p : CreateSKURequest) :
    (GetBookByID st p.bookId = none → CreateSKU st p = (st, .error .bookNotFound)) ∧
    (∀ b, GetBookByID st p.bookId = some b → GetStoreByUUID st p.storeUUID = none →
      CreateSKU st p = (st, .error .storeNotFound)) ∧
    (∀ b store s0, GetBookByID st p.bookId = some b →
      GetStoreByUUID st p.storeUUID = some store →
      GetSKUByBookAndStore st p.bookId store.id = some s0 →
      CreateSKU st p = (st, .error .skuAlreadyExists)) ∧
    (∀ b store, GetBookByID st p.bookId = some b →
      GetStoreByUUID st p.storeUUID = some store →
      (∀ s ∈ st.skus, ¬(s.bookId = p.bookId ∧ s.storeId = store.id)) →
      0 ≤ p.priceInKopeks → 0 ≤ p.stockCount →
      ∃ st2 sku, CreateSKU st p = (st2, .ok sku) ∧
        st2.skus = st.skus ++ [sku] ∧ st2.books = st.books ∧ st2.stores = st.stores ∧
        (CreateSKU st2 p).2 = .error .skuAlreadyExists) := by
  refine ⟨?_, ?_, ?_, ?_⟩
  · intro hnone
    unfold CreateSKU
    simp only [hnone]
  · intro b hb hsn
    unfold CreateSKU
    simp only [hb, hsn]
  · intro b store s0 hb hs hk
    unfold CreateSKU
    simp only [hb, hs, hk]
  · intro b store hb hs hnopair hp hq
    have hk : GetSKUByBookAndStore st p.bookId store.id = none := by
      unfold GetSKUByBookAndStore
      rw [List.find?_eq_none]
      intro x hx
      simp only [Bool.and_eq_true, beq_iff_eq]
      exact fun hc => hnopair x hx ⟨hc.1.1, hc.1.2⟩
    obtain ⟨hbmem, hbid, _⟩ := GetBookByID_some hb
    obtain ⟨htmem, htu, _⟩ := GetStoreByUUID_some hs
    have hany1 : st.books.any (fun x => x.id == p.bookId) = true := by
      rw [List.any_eq_true]
      exact ⟨b, hbmem, by simp [hbid]⟩
    have hany2 : st.stores.any (fun x => x.id == store.id) = true := by
      rw [List.any_eq_true]
      exact ⟨store, htmem, by simp⟩
    have hany3 : st.skus.any (fun s => s.bookId == p.bookId && s.storeId == store.id) = false := by
      rw [List.any_eq_false]
      intro x hx
      simp only [Bool.and_eq_true, beq_iff_eq]
      exact fun hc => hnopair x hx ⟨hc.1, hc.2⟩
    have hins : dbCreateSKU st p.bookId store.id p.priceInKopeks p.stockCount =
        .ok ({ st with
                skus := st.skus ++ [mkSku st p.bookId store.id p.priceInKopeks p.stockCount]
                nextSkuId := st.nextSkuId + 1
                nextUuid := st.nextUuid + 1 },
             mkSku st p.bookId store.id p.priceInKopeks p.stockCount) := by
      unfold dbCreateSKU
      rw [if_neg (by simp [hany1]), if_neg (by simp [hany2]),
        if_neg (by simp [hany3]), if_neg (by omega)]
    refine ⟨{ st with
               skus := st.skus ++ [mkSku st p.bookId store.id p.priceInKopeks p.stockCount]
               nextSkuId := st.nextSkuId + 1
               nextUuid := st.nextUuid + 1 },
      mkSku st p.bookId store.id p.priceInKopeks p.stockCount, ?_, rfl, rfl, rfl, ?_⟩
    · unfold CreateSKU
      simp only [hb, hs, hk, hins]
    · have hfnone : st.skus.find?
          (fun s => s.bookId == p.bookId && s.storeId == store.id && s.deletedAt == none)
          = none := hk
      have hk2 : GetSKUByBookAndStore
          ({ st with
              skus := st.skus ++ [mkSku st p.bookId store.id p.priceInKopeks p.stockCount]
              nextSkuId := st.nextSkuId + 1
              nextUuid := st.nextUuid + 1 }) p.bookId store.id
          = some (mkSku st p.bookId store.id p.priceInKopeks p.stockCount) := by
        unfold GetSKUByBookAndStore
        show (st.skus ++ [mkSku st p.bookId store.id p.priceInKopeks p.stockCount]).find?
          (fun s => s.bookId == p.bookId && s.storeId == store.id && s.deletedAt == none)
          = some (mkSku st p.bookId store.id p.priceInKopeks p.stockCount)
        rw [List.find?_append, hfnone, Option.none_or]
        apply List.find?_cons_of_pos
        simp [mkSku]
      have hb2 : GetBookByID
          ({ st with
              skus := st.skus ++ [mkSku st p.bookId store.id p.priceInKopeks p.stockCount]
              nextSkuId := st.nextSkuId + 1
              nextUuid := st.nextUuid + 1 }) p.bookId = some b := hb
      have hs2 : GetStoreByUUID
          ({ st with
              skus := st.skus ++ [mkSku st p.bookId store.id p.priceInKopeks p.stockCount]
              nextSkuId := st.nextSkuId + 1
              nextUuid := st.nextUuid + 1 }) p.storeUUID = some store := hs
      unfold CreateSKU
      simp only [hb2, hs2, hk2]

/-- C4 (amended): when the pre-check misses (it only sees non-deleted SKUs)
but the storage UNIQUE (book_id, store_id) constraint fires at insert time,
CreateSKU passes the storage error through unclassified instead of mapping
it to SKUAlreadyExists. -/
theorem createSKU_unique_violation_passthrough (st : DBState) (p : CreateSKURequest) :
    ∀ b store, GetBookByID st p.bookId = some b →
      GetStoreByUUID st p.storeUUID = some store →
      GetSKUByBookAndStore st p.bookId store.id = none →
      dbCreateSKU st p.bookId store.id p.priceInKopeks p.stockCount
        = .error .uniqueViolation →
      CreateSKU st p = (st, .error (.db .uniqueViolation)) := by
  intro b store hb hs hk hins
  unfold CreateSKU
  simp only [hb, hs, hk, hins]

theorem adjStock_stockCount_of_uuid (now u : Nat) (d : Int) {x : Sku}
    (h : x.uuid = u) : (adjStock now u d x).stockCount = x.stockCount + d := by
  unfold adjStock
  rw [if_pos (by simp [h])]

theorem adjStock_comp_apply (now : Nat) (u : Nat) (d1 d2 : Int) (x : Sku) :
    adjStock now u d2 (adjStock now u d1 x) = adjStock now u (d1 + d2) x := by
  unfold adjStock
  by_cases h : (x.uuid == u) = true
  · simp only [h, if_true]
    simp [Sku.mk.injEq, add_assoc]
  · simp only [h, if_false]
    simp [h]

theorem adjStock_map_comp (now : Nat) (u : Nat) (d1 d2 : Int) (l : List Sku) :
    (l.map (adjStock now u d1)).map (adjStock now u d2)
      = l.map (adjStock now u (d1 + d2)) := by
  rw [List.map_map]
  have hcomp : adjStock now u d2 ∘ adjStock now u d1 = adjStock now u (d1 + d2) :=
    funext (adjStock_comp_apply now u d1 d2)
  rw [hcomp]

theorem adjustStock_ok_inv {st st2 : DBState} {u : Nat} {d : Int} {r : Sku}
    (h : AdjustSKUStock st u d = (st2, .ok r)) :
    ∃ s b, GetSKUByUUID st u = some (s, b) ∧ ¬ wrap32 (s.stockCount + d) < 0 ∧
      dbAdjustSKUStock st u d = .ok (st2, r) := by
  unfold AdjustSKUStock at h
  split at h
  · exact absurd h (by simp)
  · rename_i s bk hget
    split at h
    · exact absurd h (by simp)
    · rename_i hlt
      split at h
      · exact absurd h (by simp)
      · rename_i st2' r' heq
        simp only [Prod.mk.injEq] at h
        obtain ⟨hh1, hh2⟩ := h
        subst hh1
        simp only [Except.ok.injEq] at hh2
        subst hh2
        exact ⟨s, bk, hget, hlt, heq⟩

/-- C6 amended: when the two sequential AdjustSKUStock calls both succeed,
a single AdjustSKUStock call with d1 + d2 produces exactly the same final
state and the same returned row (in general the claim fails when an
intermediate call errors: a failing call leaves stock unchanged, so the
sequence and the combined call can diverge). -/
theorem adjustStock_seq_assoc (st st1 st2 : DBState) (u : Nat) (d1 d2 : Int)
    (r1 r2 : Sku)
    (h1 : AdjustSKUStock st u d1 = (st1, .ok r1))
    (h2 : AdjustSKUStock st1 u d2 = (st2, .ok r2)) :
    AdjustSKUStock st u (d1 + d2) = (st2, .ok r2) := by
  obtain ⟨s, b, hget, hw1, hdb1⟩ := adjustStock_ok_inv h1
  obtain ⟨hg1, hst1, hfind1⟩ := dbAdjustSKUStock_ok hdb1
  subst hst1
  obtain ⟨s1, b1, hget1, hw2, hdb2⟩ := adjustStock_ok_inv h2
  obtain ⟨hg2, hst2, hfind2⟩ := dbAdjustSKUStock_ok hdb2
  subst hst2
  obtain ⟨hf, hbk, hmem, huuid, hdel⟩ := GetSKUByUUID_some hget
  -- the second call's guard, pulled back to the original rows
  have hgall : ∀ x ∈ st.skus, x.uuid = u →
      0 ≤ x.stockCount + (d1 + d2) ∧ x.stockCount + (d1 + d2) ≤ maxI32 := by
    intro x hx hxu
    have hx1 : adjStock st.now u d1 x ∈ st.skus.map (adjStock st.now u d1) :=
      List.mem_map_of_mem _ hx
    have h2g := hg2 (adjStock st.now u d1 x) hx1 (by rw [adjStock_uuid]; exact hxu)
    rw [adjStock_stockCount_of_uuid st.now u d1 hxu] at h2g
    omega
  -- the wrap-around check passes for the combined delta
  have hs12 := hgall s hmem huuid
  have hwrap : wrap32 (s.stockCount + (d1 + d2)) = s.stockCount + (d1 + d2) :=
    wrap32_eq_self (by unfold minI32; omega) hs12.2
  have hcheck : ¬ wrap32 (s.stockCount + (d1 + d2)) < 0 := by
    rw [hwrap]
    omega
  -- the combined update returns the same row
  have hfind12 : (st.skus.map (adjStock st.now u (d1 + d2))).find?
      (fun x => x.uuid == u) = some r2 := by
    have hf2 : ((st.skus.map (adjStock st.now u d1)).map (adjStock st.now u d2)).find?
        (fun x => x.uuid == u) = some r2 := hfind2
    rw [adjStock_map_comp] at hf2
    exact hf2
  unfold AdjustSKUStock
  simp only [hget]
  rw [if_neg hcheck]
  unfold dbAdjustSKUStock
  rw [if_pos hgall]
  simp only [hfind12]
  rw [Prod.mk.injEq]
  refine ⟨?_, rfl⟩
  show ({ st with skus := st.skus.map (adjStock st.now u (d1 + d2)) } : DBState)
    = { st with skus := (st.skus.map (adjStock st.now u d1)).map (adjStock st.now u d2) }
  rw [adjStock_map_comp]

/-! Concrete instances used to exercise the theorems. -/

/-- Stock of the (first) SKU row with the given uuid, soft-deleted or not. -/
def skuStockOf (st : DBState) (u : Nat) : Option Int :=
  (st.skus.find? (fun s => s.uuid == u)).map (fun s => s.stockCount)

def bookA : Book := { id := 1, title := "t", author := "a", deletedAt := none }

def storeA : Store :=
  { id := 1, uuid := 10, name := "n", address := "ad", deletedAt := none }

/-- An initial state: catalog populated, no SKUs yet. -/
def stInit : DBState :=
  { books := [bookA], stores := [storeA], skus := [], nextSkuId := 1, nextUuid := 5,
    now := 0 }

def reqA : CreateSKURequest :=
  { bookId := 1, storeUUID := 10, priceInKopeks := 500, stockCount := 10 }

/-- A request with a negative price (handler-level validation case). -/
def reqNeg : CreateSKURequest :=
  { bookId := 1, storeUUID := 10, priceInKopeks := -1, stockCount := 2 }

/-- A live SKU with stock 7. -/
def skuB : Sku :=
  { id := 1, uuid := 5, bookId := 1, storeId := 1, priceInKopeks := 500,
    stockCount := 7, createdAt := 0, updatedAt := 0, deletedAt := none }

def stC2 : DBState :=
  { books := [bookA], stores := [storeA], skus := [skuB], nextSkuId := 2, nextUuid := 6,
    now := 0 }

/-- A soft-deleted SKU for the (book 1, store 1) pair: invisible to the
pre-check, but still guarded by the UNIQUE (book_id, store_id) constraint. -/
def skuDel : Sku :=
  { id := 1, uuid := 5, bookId := 1, storeId := 1, priceInKopeks := 500,
    stockCount := 3, createdAt := 0, updatedAt := 0, deletedAt := some 0 }

def stC4 : DBState :=
  { books := [bookA], stores := [storeA], skus := [skuDel], nextSkuId := 2, nextUuid := 6,
    now := 1 }

/-- A live SKU with stock 0 (C6 counterexample base). -/
def skuZero : Sku := { skuB with stockCount := 0 }

def stC6 : DBState := { stC2 with skus := [skuZero] }

/-- C6 amended run: stock 10 and two successful decrements. -/
def skuTen : Sku := { skuB with stockCount := 10 }

def stW6 : DBState := { stC2 with skus := [skuTen] }

def skuW6a : Sku := { skuB with stockCount := 7 }

def stW6a : DBState := { stC2 with skus := [skuW6a] }

def skuW6b : Sku := { skuB with stockCount := 5 }

def stW6b : DBState := { stC2 with skus := [skuW6b] }

/-- A live SKU whose stock sits at the int32 maximum (C10). -/
def skuMax : Sku := { skuB with stockCount := 2147483647 }

def stMax : DBState := { stC2 with skus := [skuMax] }

/-! Witnesses and counterexamples. -/

theorem reachable_stock_price_nonneg_witness :
    0 ≤ (mkSku stInit 1 1 500 10).stockCount ∧
    0 ≤ (mkSku stInit 1 1 500 10).priceInKopeks :=
  reachable_stock_price_nonneg (CreateSKU stInit reqA).1
    (Reachable.createSKU stInit reqA (Reachable.init stInit rfl) (by decide))
    (mkSku stInit 1 1 500 10) (by decide)

theorem adjustStock_atomic_on_failure_witness :
    AdjustSKUStock stC2 5 (-100) = (stC2, .error .insufficientStock) :=
  (adjustStock_atomic_on_failure stC2 5 (-100)).1 skuB bookA
    (by decide) (by decide) (by decide) (by decide)

theorem createSKU_check_order_witness :
    ∃ st2 sku, CreateSKU stInit reqA = (st2, .ok sku) ∧
      st2.skus = stInit.skus ++ [sku] ∧ st2.books = stInit.books ∧
      st2.stores = stInit.stores ∧
      (CreateSKU st2 reqA).2 = .error .skuAlreadyExists :=
  (createSKU_check_order stInit reqA).2.2.2 bookA storeA
    (by decide) (by decide) (by decide) (by decide) (by decide)

/-- C4 counterexample: with a soft-deleted SKU for the pair in place, the
insert surfaces a uniqueness violation and CreateSKU returns the
unclassified storage error, not SKUAlreadyExists as the claim states. -/
theorem createSKU_unique_passthrough_cex :
    dbCreateSKU stC4 1 1 500 2 = .error .uniqueViolation ∧
    CreateSKU stC4 reqA = (stC4, .error (.db .uniqueViolation)) ∧
    (CreateSKU stC4 reqA).2 ≠ .error .skuAlreadyExists := by
  refine ⟨by decide, by decide, by decide⟩

theorem createSKU_unique_violation_passthrough_witness :
    CreateSKU stC4 reqA = (stC4, .error (.db .uniqueViolation)) :=
  createSKU_unique_violation_passthrough stC4 reqA bookA storeA
    (by decide) (by decide) (by decide) (by decide)

theorem getAvailability_spec_witness :
    GetAvailability stC2 1 = .ok (ListBookAvailability stC2 1) ∧
    GetAvailability stInit 1 = .ok [] :=
  ⟨(getAvailability_spec stC2 1).2.1 bookA (by decide),
   (getAvailability_spec stInit 1).2.2.2 bookA (by decide) (by decide)⟩

/-- C6 counterexample: adjusting stock 0 by -5 (which fails, leaving stock
unchanged) and then by +5 ends at stock 5, while a single adjustment by
(-5) + 5 = 0 ends at stock 0 — the claim fails for deltas whose first call
errors. -/
theorem adjustStock_seq_assoc_cex :
    skuStockOf ((AdjustSKUStock (AdjustSKUStock stC6 5 (-5)).1 5 5).1) 5 = some 5 ∧
    skuStockOf ((AdjustSKUStock stC6 5 ((-5) + 5)).1) 5 = some 0 ∧
    skuStockOf ((AdjustSKUStock (AdjustSKUStock stC6 5 (-5)).1 5 5).1) 5 ≠
      skuStockOf ((AdjustSKUStock stC6 5 ((-5) + 5)).1) 5 := by
  refine ⟨by decide, by decide, by decide⟩

theorem adjustStock_seq_assoc_witness :
    AdjustSKUStock stW6 5 ((-3) + (-2)) = (stW6b, .ok skuW6b) :=
  adjustStock_seq_assoc stW6 stW6a stW6b 5 (-3) (-2) skuW6a skuW6b
    (by decide) (by decide)

theorem updatePrice_frame_witness :
    ∃ st2 r, UpdateSKUPrice stC2 5 450 = (st2, .ok r) ∧
      r.priceInKopeks = 450 ∧ r.uuid = 5 ∧
      st2.books = stC2.books ∧ st2.stores = stC2.stores ∧
      List.Forall₂ (fun x y =>
        y.id = x.id ∧ y.uuid = x.uuid ∧ y.bookId = x.bookId ∧
        y.storeId = x.storeId ∧ y.stockCount = x.stockCount ∧
        y.createdAt = x.createdAt ∧ y.deletedAt = x.deletedAt ∧
        y.priceInKopeks = (if x.uuid = 5 then 450 else x.priceInKopeks))
        stC2.skus st2.skus :=
  (updatePrice_frame stC2 5 450).2 skuB bookA (by decide) (by decide)

theorem handlerCreateSKU_invalid_rejected_witness :
    handlerCreateSKU stInit reqNeg = (stInit, .error .invalidInput) :=
  handlerCreateSKU_invalid_rejected stInit reqNeg (Or.inl (by decide))

theorem getSKU_spec_witness :
    GetSKU stC2 5 = .ok (skuB, bookA) ∧
    GetSKU stC4 5 = .error .skuNotFound :=
  ⟨(getSKU_spec stC2 5).1 skuB bookA (by decide) (by decide),
   (getSKU_spec stC4 5).2 (by decide)⟩

theorem adjustStock_overflow_insufficient_witness :
    wrap32 (skuMax.stockCount + 1) < 0 ∧
    AdjustSKUStock stMax 5 1 = (stMax, .error .insufficientStock) :=
  adjustStock_overflow_insufficient stMax 5 1 skuMax bookA
    (by decide) (by decide) (by decide) (by decide) (by decide) (by decide)

end Bookstores
